import Mathlib

/-!
Shallow embedding of `safe-fetch` (`src/index.js`): the wrapper factory
`createSafeFetch`, the exported constant `ERROR_STATUS`, and the error
normalization performed in the `.catch` handler (property harvesting,
JSON serialization with a circular-reference fallback, and synthesized
response construction).

JavaScript runtime values are modelled by `JSValue`; objects live in an
explicit heap (a finite association list from addresses to property
lists) so that self-referential failure values and throwing getters can
be represented. Exceptions are modelled with `Except`: `Except.error e`
means "the JavaScript code threw the value `e`".
-/

namespace SafeFetch

/-- A JavaScript runtime value. Objects are represented by a heap
address; functions and symbols only matter to the normalizer through
their `typeof`, so they carry no structure. Numbers are modelled as
integers (every number appearing in the code and claims is integral). -/
inductive JSValue : Type where
  | vStr (s : String)
  | vNum (n : Int)
  | vBool (b : Bool)
  | vNull
  | vUndefined
  | vObj (addr : Nat)
  | vFun
  | vSym
deriving Repr, DecidableEq

/-- An own property of an object: either a data property holding a
value, or an accessor whose getter throws `exn` when read. -/
inductive PropVal : Type where
  | val (v : JSValue)
  | getThrow (exn : JSValue)
deriving Repr, DecidableEq

/-- An object's own properties, in `Object.getOwnPropertyNames` order
(enumerable and non-enumerable alike). -/
abbrev JSObject := List (String × PropVal)

/-- The heap: a finite map from addresses to objects. -/
abbrev Heap := List (Nat × JSObject)

/-- The value thrown by a failed property access on `null`/`undefined`
(a `TypeError` object, abstracted to a tag in this model). -/
def typeErrorVal : JSValue := .vStr "TypeError"

/-- The value thrown by `JSON.stringify` on a circular structure
(a `TypeError` object, abstracted to a tag in this model). -/
def jsonCycleErrorVal : JSValue := .vStr "TypeError: circular structure"

/-- The value thrown by the `Response` constructor when `statusText`
fails its validation (a `TypeError` object, abstracted to a tag). -/
def reasonPhraseErrorVal : JSValue := .vStr "TypeError: invalid statusText"

/-- JavaScript truthiness. -/
def jsTruthy : JSValue → Bool
  | .vStr s => s ≠ ""
  | .vNum n => n ≠ 0
  | .vBool b => b
  | .vNull => false
  | .vUndefined => false
  | .vObj _ => true
  | .vFun => true
  | .vSym => true

/-- `typeof value === "function" || typeof value === "symbol"`. -/
def isFunOrSym : JSValue → Bool
  | .vFun => true
  | .vSym => true
  | _ => false

/-- Property read `v[name]`. Reading on `null`/`undefined` throws a
`TypeError`; primitives have no own properties in this model (matching
numbers and booleans, whose boxed forms have none); a present accessor
property runs its getter, which may throw. -/
def getProp (h : Heap) (v : JSValue) (name : String) : Except JSValue JSValue :=
  match v with
  | .vNull => .error typeErrorVal
  | .vUndefined => .error typeErrorVal
  | .vObj a =>
    match h.lookup a with
    | none => .ok .vUndefined
    | some props =>
      match props.lookup name with
      | none => .ok .vUndefined
      | some (.val w) => .ok w
      | some (.getThrow e) => .error e
  | _ => .ok .vUndefined

/-- `Object.getOwnPropertyNames(v)`: the own property names of an
object, in definition order; primitives yield the empty list. -/
def ownPropNames (h : Heap) (v : JSValue) : List String :=
  match v with
  | .vObj a => ((h.lookup a).getD []).map Prod.fst
  | _ => []

/-- JavaScript `String()` coercion, as first applied to the summary
when the `Response` constructor converts `statusText`; coercing a
symbol throws a `TypeError`. A function's source text is not tracked
by the model, so a fixed tag stands in for it (no theorem below
reaches that case: their hypotheses force a string summary). The
constructor's reason-phrase/`ByteString` validation of the resulting
string is separate: `validStatusText`. -/
def jsToStringE : JSValue → Except JSValue String
  | .vStr s => .ok s
  | .vNum n => .ok (toString n)
  | .vBool b => .ok (if b then "true" else "false")
  | .vNull => .ok "null"
  | .vUndefined => .ok "undefined"
  | .vObj _ => .ok "[object Object]"
  | .vFun => .ok "function () \x7b\x7d"
  | .vSym => .error typeErrorVal

/-- A character admissible in `statusText`: the WHATWG `Response`
constructor requires the reason-phrase production
`HTAB / SP / VCHAR / obs-text` (0x09, 0x20-0x7E, 0x80-0xFF). A code
point above 0xFF would already fail the WebIDL `ByteString`
conversion, so one membership test covers both constructor failure
modes (control characters such as a newline, and non-Latin-1 text). -/
def isReasonPhraseChar (c : Char) : Bool :=
  c.toNat = 0x09 || (0x20 ≤ c.toNat && c.toNat ≤ 0x7E)
    || (0x80 ≤ c.toNat && c.toNat ≤ 0xFF)

/-- The `Response` constructor accepts a `statusText` string iff every
character is a reason-phrase character; otherwise it throws a
`TypeError`. -/
def validStatusText (s : String) : Bool := s.toList.all isReasonPhraseChar

/-- JSON escaping of one character, as in `JSON.stringify`. -/
def escChar (c : Char) : String :=
  if c = '"' then "\\\""
  else if c = '\\' then "\\\\"
  else if c = '\x08' then "\\b"
  else if c = '\x0c' then "\\f"
  else if c = '\n' then "\\n"
  else if c = '\r' then "\\r"
  else if c = '\t' then "\\t"
  else if c.toNat < 32 then
    "\\u00" ++ String.singleton (Nat.digitChar (c.toNat / 16))
      ++ String.singleton (Nat.digitChar (c.toNat % 16))
  else String.singleton c

/-- A JSON string literal for `s`, as produced by `JSON.stringify`. -/
def jsonQuote (s : String) : String :=
  "\"" ++ String.join (s.toList.map escChar) ++ "\""

/-- Comma-join of the serialized members of a JSON object. -/
def commaJoin : List String → String
  | [] => ""
  | [x] => x
  | x :: y :: xs => x ++ "," ++ commaJoin (y :: xs)

/-- Serialization of an object's own properties, given a serializer `f`
for the property values. A property whose getter throws makes the whole
serialization throw; a value serializing to nothing (`undefined`,
functions, symbols) is omitted. -/
def stringifyProps (f : JSValue → Except Unit (Option String)) :
    List (String × PropVal) → Except Unit (List String)
  | [] => .ok []
  | (_, .getThrow _) :: _ => .error ()
  | (k, .val v) :: rest =>
    match f v with
    | .error e => .error e
    | .ok none => stringifyProps f rest
    | .ok (some sv) =>
      match stringifyProps f rest with
      | .error e => .error e
      | .ok parts => .ok ((jsonQuote k ++ ":" ++ sv) :: parts)

/-- `JSON.stringify` on a value, with a stack of the object addresses
currently being serialized: revisiting an address on the stack is a
circular structure and throws (`Except.error`). `ok none` is the
`undefined` result (value not representable); `ok (some s)` is JSON
text. The fuel bounds the nesting depth; callers supply enough fuel for
every acyclic traversal of the heap. -/
def stringifyVal (h : Heap) : Nat → List Nat → JSValue → Except Unit (Option String)
  | 0, _, _ => .error ()
  | _ + 1, _, .vStr s => .ok (some (jsonQuote s))
  | _ + 1, _, .vNum n => .ok (some (toString n))
  | _ + 1, _, .vBool b => .ok (some (if b then "true" else "false"))
  | _ + 1, _, .vNull => .ok (some "null")
  | _ + 1, _, .vUndefined => .ok none
  | _ + 1, _, .vFun => .ok none
  | _ + 1, _, .vSym => .ok none
  | fuel + 1, stack, .vObj a =>
    if a ∈ stack then .error ()
    else
      match h.lookup a with
      | none => .error ()
      | some props =>
        match stringifyProps (fun w => stringifyVal h fuel (a :: stack) w) props with
        | .error e => .error e
        | .ok parts => .ok (some ("\x7b" ++ commaJoin parts ++ "\x7d"))

/-- An address unused by the heap. -/
def freshAddr (h : Heap) : Nat :=
  h.foldr (fun p m => max (p.1 + 1) m) 0

/-- `JSON.stringify` applied to a freshly allocated plain object with
data properties `props` (the shape of both `errorObject` and the
`{ message: errorMessage }` fallback in the source): the object is
placed at a fresh address and serialized with enough fuel for any
acyclic traversal. `Except.error` is a thrown `TypeError`. -/
def allocStringify (h : Heap) (props : List (String × JSValue)) : Except Unit String :=
  let a := freshAddr h
  let h2 : Heap := (a, props.map (fun kv => (kv.1, PropVal.val kv.2))) :: h
  match stringifyVal h2 (h2.length + 1) [] (.vObj a) with
  | .ok (some s) => .ok s
  | .ok none => .error ()
  | .error e => .error e

/-- The status code used to indicate an error occurred during fetch
(`export const ERROR_STATUS = 10001`). -/
def ERROR_STATUS : Nat := 10001

/-- Lines 66-67: `const errorMessage = typeof error === "string" ?
error : error.message || "Unknown error";`. The `||` takes the
`message` value when truthy, else the literal. Reading `.message` can
throw (on `null`/`undefined`, or via a hostile getter), in which case
the handler throws. -/
def errorMessageOf (h : Heap) (error : JSValue) : Except JSValue JSValue :=
  match error with
  | .vStr s => .ok (.vStr s)
  | _ =>
    match getProp h error "message" with
    | .error e => .error e
    | .ok m => .ok (if jsTruthy m then m else .vStr "Unknown error")

/-- Lines 72-91: harvest every own property of the failure value into
`errorObject`, skipping properties whose read throws and values that
are functions or symbols. -/
def buildErrorObject (h : Heap) (error : JSValue) : List (String × JSValue) :=
  (ownPropNames h error).foldl
    (fun acc name =>
      match getProp h error name with
      | .error _ => acc
      | .ok value => if isFunOrSym value then acc else acc ++ [(name, value)])
    []

/-- Lines 63-101: build `errorObject` (the `{ message: error }` record
for a string failure, the harvested record otherwise), then
`JSON.stringify` it; if that throws, fall back to
`JSON.stringify({ message: errorMessage })`. The fallback is not inside
a `try`, so its failure is a thrown `TypeError`. -/
def bodyOf (h : Heap) (error : JSValue) (errorMessage : JSValue) : Except JSValue String :=
  let errorObject :=
    match error with
    | .vStr s => [("message", JSValue.vStr s)]
    | _ => buildErrorObject h error
  match allocStringify h errorObject with
  | .ok s => .ok s
  | .error _ =>
    match allocStringify h [("message", errorMessage)] with
    | .ok s => .ok s
    | .error _ => .error jsonCycleErrorVal

/-- A Response-like value: what the claims observe of a `Response`. -/
structure ResponseLike where
  status : Nat
  statusText : String
  headers : List (String × String)
  body : Option String
deriving Repr, DecidableEq

/-- Lines 62-121: the `.catch` handler. Computes `errorMessage`, the
serialized body, then constructs `new Response(body, { status: 599,
statusText: errorMessage, headers: { "Content-Type":
"application/json" } })` and overrides `status` with `ERROR_STATUS`
via `Object.defineProperty` (modelled as constructing directly with
the final status). The constructor coerces `statusText` and throws a
`TypeError` when the result fails the reason-phrase/`ByteString`
check (`validStatusText`), e.g. on a newline or non-Latin-1 text.
`Except.error e` means the handler threw `e`, in which case the
promise returned by `.catch` rejects with `e`. -/
def catchHandler (h : Heap) (error : JSValue) : Except JSValue ResponseLike :=
  match errorMessageOf h error with
  | .error e => .error e
  | .ok errorMessage =>
    match bodyOf h error errorMessage with
    | .error e => .error e
    | .ok body =>
      match jsToStringE errorMessage with
      | .error e => .error e
      | .ok statusText =>
        if validStatusText statusText then
          .ok { status := ERROR_STATUS
                statusText := statusText
                headers := [("Content-Type", "application/json")]
                body := some body }
        else .error reasonPhraseErrorVal

/-- The outcome of invoking a fetch-like callable: a promise that
resolves, a promise that rejects with a failure value (living in heap
`h`), or a synchronous throw before any promise exists. -/
inductive CallResult : Type where
  | resolved (r : ResponseLike)
  | rejected (h : Heap) (e : JSValue)
  | thrown (h : Heap) (e : JSValue)
deriving Repr, DecidableEq

/-- A transport: callable with a target and optional options bag.
The options bag is opaque to the wrapper and modelled abstractly. -/
abbrev Transport := String → Option String → CallResult

/-- Lines 60-123: `createSafeFetch(fetch)` returns
`(url, init) => fetch(url, init).catch(handler)`. A resolved promise
passes through unchanged; a rejected promise runs the handler, whose
result resolves the returned promise (or whose own throw rejects it);
a synchronous throw from `fetch` happens before `.catch` is attached,
so it propagates synchronously. -/
def createSafeFetch (t : Transport) : Transport := fun url init =>
  match t url init with
  | .resolved r => .resolved r
  | .rejected h e =>
    match catchHandler h e with
    | .ok r => .resolved r
    | .error exn => .rejected h exn
  | .thrown h e => .thrown h e

/-- `typeof v === "string"`. -/
def isString : JSValue → Bool
  | .vStr _ => true
  | _ => false

/-- The declarative description of the harvested error record: exactly
the own properties whose read succeeds and whose value is neither a
function nor a symbol, under their original keys, in order. -/
def specRecord (h : Heap) (e : JSValue) : List (String × JSValue) :=
  (ownPropNames h e).filterMap (fun name =>
    match getProp h e name with
    | .error _ => none
    | .ok v => if isFunOrSym v then none else some (name, v))

/-- A standard `Error` failure: own `message` and `stack` strings. -/
def errHeap : Heap :=
  [(0, [("message", .val (.vStr "Network error occurred")),
        ("stack", .val (.vStr "Error: Network error occurred"))])]

/-- An abort failure, as produced by a cancellation signal. -/
def abortHeap : Heap :=
  [(0, [("message", .val (.vStr "The operation was aborted")),
        ("name", .val (.vStr "AbortError")),
        ("stack", .val (.vStr "AbortError: The operation was aborted"))])]

/-- An `Error` carrying custom properties (`code`, `statusCode`). -/
def customHeap : Heap :=
  [(0, [("message", .val (.vStr "Request failed")),
        ("stack", .val (.vStr "Error: Request failed")),
        ("code", .val (.vNum 500)),
        ("statusCode", .val (.vNum 503))])]

/-- A plain-object failure with no `message` field. -/
def plainHeap : Heap := [(0, [("code", .val (.vNum 42))])]

/-- A self-referential failure: `error.self = error`. -/
def cyclicHeap : Heap :=
  [(0, [("message", .val (.vStr "boom")), ("self", .val (.vObj 0))])]

/-- A failure with a hostile getter on property `bad`. -/
def getterHeap : Heap :=
  [(0, [("message", .val (.vStr "m")),
        ("bad", .getThrow (.vStr "hostile")),
        ("code", .val (.vNum 42))])]

/-- A failure with a function-valued property `myFunction`. -/
def funHeap : Heap :=
  [(0, [("message", .val (.vStr "m")),
        ("myFunction", .val .vFun),
        ("code", .val (.vNum 42))])]

/-- A standard `Error` whose message contains a newline, which fails
the `Response` constructor's reason-phrase check. -/
def errNlHeap : Heap :=
  [(0, [("message", .val (.vStr "line1\nline2")),
        ("stack", .val (.vStr "Error: line1"))])]

/-- A self-referential failure whose message contains a newline. -/
def cyclicNlHeap : Heap :=
  [(0, [("message", .val (.vStr "a\nb")), ("self", .val (.vObj 0))])]

theorem stringify_single_string (h : Heap) (s : String) :
    allocStringify h [("message", JSValue.vStr s)]
      = .ok ("\x7b" ++ (jsonQuote "message" ++ ":" ++ jsonQuote s) ++ "\x7d") := by
  simp [allocStringify, stringifyVal, stringifyProps, commaJoin, List.lookup]

theorem stringify_empty (h : Heap) : allocStringify h [] = .ok "\x7b\x7d" := by
  simp [allocStringify, stringifyVal, stringifyProps, commaJoin, List.lookup]

theorem errorMessageOf_nonstring (h : Heap) (e : JSValue) (hns : isString e = false) :
    errorMessageOf h e
      = match getProp h e "message" with
        | .error ex => .error ex
        | .ok m => .ok (if jsTruthy m then m else .vStr "Unknown error") := by
  cases e <;> simp [isString] at hns ⊢ <;> rfl

theorem bodyOf_nonstring (h : Heap) (e : JSValue) (em : JSValue) (hns : isString e = false) :
    bodyOf h e em
      = match allocStringify h (buildErrorObject h e) with
        | .ok s => .ok s
        | .error _ =>
          match allocStringify h [("message", em)] with
          | .ok s => .ok s
          | .error _ => .error jsonCycleErrorVal := by
  cases e <;> simp [isString] at hns ⊢ <;> rfl

theorem bodyOf_ok (h : Heap) (e : JSValue) (s : String) :
    ∃ b, bodyOf h e (.vStr s) = .ok b := by
  cases hstr : isString e with
  | true =>
    cases e <;> simp [isString] at hstr
    rename_i s'
    cases hfull : allocStringify h [("message", JSValue.vStr s')] with
    | ok b => exact ⟨b, by simp [bodyOf, hfull]⟩
    | error u => exact absurd hfull (by rw [stringify_single_string]; simp)
  | false =>
    rw [bodyOf_nonstring h e _ hstr]
    cases hfull : allocStringify h (buildErrorObject h e) with
    | ok b => exact ⟨b, by simp⟩
    | error u => exact ⟨_, by rw [stringify_single_string]⟩

theorem catchHandler_ok_explicit (h : Heap) (e : JSValue) (s : String) (b : String)
    (herr : errorMessageOf h e = .ok (.vStr s)) (hb : bodyOf h e (.vStr s) = .ok b)
    (hvalid : validStatusText s = true) :
    catchHandler h e
      = .ok ⟨ERROR_STATUS, s, [("Content-Type", "application/json")], some b⟩ := by
  unfold catchHandler
  simp [herr, hb, jsToStringE, hvalid]

theorem catchHandler_shape (h : Heap) (e : JSValue) (r : ResponseLike)
    (hok : catchHandler h e = .ok r) :
    ∃ st b, r = ⟨ERROR_STATUS, st, [("Content-Type", "application/json")], some b⟩ := by
  unfold catchHandler at hok
  cases herr : errorMessageOf h e with
  | error ex => simp [herr] at hok
  | ok em =>
    simp only [herr] at hok
    cases hbody : bodyOf h e em with
    | error ex => simp [hbody] at hok
    | ok b =>
      simp only [hbody] at hok
      cases hst : jsToStringE em with
      | error ex => simp [hst] at hok
      | ok st =>
        simp only [hst] at hok
        split at hok
        · exact ⟨st, b, by cases hok; rfl⟩
        · simp at hok

theorem catchHandler_statusText (h : Heap) (e : JSValue) (s : String) (r : ResponseLike)
    (herr : errorMessageOf h e = .ok (.vStr s)) (hok : catchHandler h e = .ok r) :
    r.statusText = s := by
  unfold catchHandler at hok
  simp only [herr] at hok
  cases hbody : bodyOf h e (.vStr s) with
  | error ex => simp [hbody] at hok
  | ok b =>
    simp only [hbody, jsToStringE] at hok
    split at hok
    · cases hok; rfl
    · simp at hok

theorem harvest_go (h : Heap) (e : JSValue) (names : List String) :
    ∀ acc, names.foldl
      (fun acc name =>
        match getProp h e name with
        | .error _ => acc
        | .ok value => if isFunOrSym value then acc else acc ++ [(name, value)]) acc
      = acc ++ names.filterMap (fun name =>
        match getProp h e name with
        | .error _ => none
        | .ok v => if isFunOrSym v then none else some (name, v)) := by
  induction names with
  | nil => intro acc; simp
  | cons n ns ih =>
    intro acc
    simp only [List.foldl_cons, List.filterMap_cons]
    cases hv : getProp h e n with
    | error ex => simp [hv, ih]
    | ok v =>
      cases hfs : isFunOrSym v with
      | true => simp [hv, hfs, ih]
      | false => simp [hv, hfs, ih]

/-- C1 counterexample: a rejection with a standard `Error` whose
message contains a newline makes the `Response` constructor throw a
`TypeError` (invalid `statusText`), so the wrapped call rejects
instead of resolving with status `10001`. -/
theorem claim1_counterexample :
    createSafeFetch (fun _ _ => .rejected errNlHeap (.vObj 0))
      "https://example.com" none = .rejected errNlHeap reasonPhraseErrorVal := rfl

/-- C1 amended: whenever the wrapped transport's promise rejects with a
failure whose summary — the thrown string, or its `message`, or
`"Unknown error"` — consists only of HTTP reason-phrase characters
(TAB, 0x20-0x7E, 0x80-0xFF), as is the case for typical string,
standard-`Error`, custom-property-`Error`, plain-object and abort
failures, the call to the function returned by `createSafeFetch`
resolves, never rejects, and the resolved response's `status` equals
`10001`, the value of the exported numeric constant `ERROR_STATUS`.
(A summary with other characters, e.g. a newline, makes the `Response`
constructor throw and the call reject.) -/
theorem claim1_error_status_sentinel (t : Transport) (u : String) (i : Option String)
    (h : Heap) (e : JSValue) (s : String)
    (hrej : t u i = .rejected h e)
    (herr : errorMessageOf h e = .ok (.vStr s))
    (hvalid : validStatusText s = true) :
    ∃ r, createSafeFetch t u i = .resolved r
      ∧ r.status = 10001 ∧ r.status = ERROR_STATUS ∧ ERROR_STATUS = 10001 := by
  obtain ⟨b, hb⟩ := bodyOf_ok h e s
  have hok := catchHandler_ok_explicit h e s b herr hb hvalid
  exact ⟨⟨ERROR_STATUS, s, [("Content-Type", "application/json")], some b⟩,
    by simp [createSafeFetch, hrej, hok], rfl, rfl, rfl⟩

/-- C1 witness: the amended theorem applied to a rejected string, a
standard `Error`, an `Error` with custom properties, a plain object,
and an abort error, whose summaries are all valid reason phrases. -/
theorem claim1_witness :
    (∃ r, createSafeFetch (fun _ _ => .rejected [] (.vStr "String error message"))
        "https://example.com" none = .resolved r
      ∧ r.status = 10001 ∧ r.status = ERROR_STATUS ∧ ERROR_STATUS = 10001)
    ∧ (∃ r, createSafeFetch (fun _ _ => .rejected errHeap (.vObj 0))
        "https://example.com" none = .resolved r
      ∧ r.status = 10001 ∧ r.status = ERROR_STATUS ∧ ERROR_STATUS = 10001)
    ∧ (∃ r, createSafeFetch (fun _ _ => .rejected customHeap (.vObj 0))
        "https://example.com" none = .resolved r
      ∧ r.status = 10001 ∧ r.status = ERROR_STATUS ∧ ERROR_STATUS = 10001)
    ∧ (∃ r, createSafeFetch (fun _ _ => .rejected plainHeap (.vObj 0))
        "https://example.com" none = .resolved r
      ∧ r.status = 10001 ∧ r.status = ERROR_STATUS ∧ ERROR_STATUS = 10001)
    ∧ (∃ r, createSafeFetch (fun _ _ => .rejected abortHeap (.vObj 0))
        "https://example.com" none = .resolved r
      ∧ r.status = 10001 ∧ r.status = ERROR_STATUS ∧ ERROR_STATUS = 10001) :=
  ⟨claim1_error_status_sentinel _ _ _ [] (.vStr "String error message")
      "String error message" rfl rfl rfl,
   claim1_error_status_sentinel _ _ _ errHeap (.vObj 0)
      "Network error occurred" rfl rfl rfl,
   claim1_error_status_sentinel _ _ _ customHeap (.vObj 0)
      "Request failed" rfl rfl rfl,
   claim1_error_status_sentinel _ _ _ plainHeap (.vObj 0)
      "Unknown error" rfl rfl rfl,
   claim1_error_status_sentinel _ _ _ abortHeap (.vObj 0)
      "The operation was aborted" rfl rfl rfl⟩

/-- C2 counterexample: a transport that throws synchronously is not
caught — `fetch(url, init)` throws before `.catch` is attached, so the
wrapped call propagates the synchronous throw instead of returning a
synthesized response. -/
theorem claim2_counterexample :
    createSafeFetch (fun _ _ => .thrown [] (.vStr "sync failure"))
      "https://example.com" none = .thrown [] (.vStr "sync failure") := rfl

/-- C2 amended: a synchronous throw from the transport propagates to
the caller unchanged; only promise rejections reach the `.catch`
handler and are normalized. -/
theorem claim2_sync_throw_propagates (t : Transport) (u : String) (i : Option String)
    (h : Heap) (e : JSValue) (hthr : t u i = .thrown h e) :
    createSafeFetch t u i = .thrown h e := by
  simp [createSafeFetch, hthr]

/-- C2 witness: the amended theorem at a concrete sync-throwing
transport. -/
theorem claim2_witness :
    createSafeFetch (fun _ _ => .thrown [(0, [])] (.vNum 7))
      "https://example.com" none = .thrown [(0, [])] (.vNum 7) :=
  claim2_sync_throw_propagates _ _ _ _ _ rfl

/-- C3: whenever the transport resolves, the wrapped call returns the
very same response value — identical identity, hence identical status,
statusText, headers and body; no transformation on the success path. -/
theorem claim3_success_pass_through (t : Transport) (u : String) (i : Option String)
    (r : ResponseLike) (hres : t u i = .resolved r) :
    createSafeFetch t u i = .resolved r := by
  simp [createSafeFetch, hres]

/-- C3 witness: the theorem at a concrete succeeding transport. -/
theorem claim3_witness :
    createSafeFetch (fun _ _ => .resolved ⟨200, "OK", [], some "test body"⟩)
      "https://example.com" none = .resolved ⟨200, "OK", [], some "test body"⟩ :=
  claim3_success_pass_through _ _ _ _ rfl

/-- C4: on every normalized failure, the synthesized response's
`statusText` equals the thrown value itself when it is a string;
otherwise the thrown value's `message` field when that field is a
present, non-empty string; otherwise the literal `"Unknown error"`
(in particular when `message` is absent or empty, i.e. falsy). -/
theorem claim4_statusText_summary (h : Heap) (e : JSValue) :
    (∀ s r, e = .vStr s → catchHandler h e = .ok r → r.statusText = s)
    ∧ (∀ m r, isString e = false → getProp h e "message" = .ok (.vStr m) → m ≠ "" →
        catchHandler h e = .ok r → r.statusText = m)
    ∧ (∀ m r, isString e = false → getProp h e "message" = .ok m → jsTruthy m = false →
        catchHandler h e = .ok r → r.statusText = "Unknown error") := by
  refine ⟨?_, ?_, ?_⟩
  · intro s r he hok
    subst he
    exact catchHandler_statusText h (.vStr s) s r rfl hok
  · intro m r hns hm hne hok
    refine catchHandler_statusText h e m r ?_ hok
    rw [errorMessageOf_nonstring h e hns, hm]
    simp [jsTruthy, hne]
  · intro m r hns hm ht hok
    refine catchHandler_statusText h e "Unknown error" r ?_ hok
    rw [errorMessageOf_nonstring h e hns, hm]
    simp [ht]

/-- C4 witness: the three branches of the theorem at a thrown string, a
standard `Error` with a non-empty message, and a plain object without a
`message` field. -/
theorem claim4_witness :
    (⟨10001, "String error message", [("Content-Type", "application/json")],
        some "\x7b\"message\":\"String error message\"\x7d"⟩ : ResponseLike).statusText
      = "String error message"
    ∧ (⟨10001, "Network error occurred", [("Content-Type", "application/json")],
        some "\x7b\"message\":\"Network error occurred\",\"stack\":\"Error: Network error occurred\"\x7d"⟩ : ResponseLike).statusText
      = "Network error occurred"
    ∧ (⟨10001, "Unknown error", [("Content-Type", "application/json")],
        some "\x7b\"code\":42\x7d"⟩ : ResponseLike).statusText
      = "Unknown error" :=
  ⟨(claim4_statusText_summary [] (.vStr "String error message")).1
      "String error message" _ rfl rfl,
   (claim4_statusText_summary errHeap (.vObj 0)).2.1
      "Network error occurred" _ rfl rfl (by decide) rfl,
   (claim4_statusText_summary plainHeap (.vObj 0)).2.2
      .vUndefined _ rfl rfl rfl rfl⟩

/-- C5: for every failure value, the harvested error record is exactly
the own string-named properties whose read does not throw and whose
value is neither a function nor a symbol, under their original keys
(`specRecord`); consequently a standard `Error` yields its `message`
and `stack`, a throwing getter is silently omitted while the others
remain, and a function-valued property is omitted while the others
remain. -/
theorem claim5_record_characterization :
    (∀ (h : Heap) (e : JSValue), buildErrorObject h e = specRecord h e)
    ∧ buildErrorObject errHeap (.vObj 0)
      = [("message", .vStr "Network error occurred"),
         ("stack", .vStr "Error: Network error occurred")]
    ∧ buildErrorObject getterHeap (.vObj 0)
      = [("message", .vStr "m"), ("code", .vNum 42)]
    ∧ buildErrorObject funHeap (.vObj 0)
      = [("message", .vStr "m"), ("code", .vNum 42)] :=
  ⟨fun h e => by
      unfold buildErrorObject specRecord
      simpa using harvest_go h e (ownPropNames h e) [],
   by decide, by decide, by decide⟩

/-- C6 counterexample: for a self-referential failure whose message
contains a newline, full serialization fails and the fallback record
would serialize, but the `Response` constructor then throws on the
invalid `statusText`, so the handler throws, the wrapped call rejects,
and no response carries the fallback body. -/
theorem claim6_counterexample :
    catchHandler cyclicNlHeap (.vObj 0) = .error reasonPhraseErrorVal := rfl

/-- C6 amended: when serialization of the full harvested record fails
(as for a self-referential failure value) and the summary is a valid
reason phrase, the body falls back to the JSON text of
`{message: summary}`, the handler returns a well-formed response, and
serialization never throws to the caller. (A summary failing the
reason-phrase check instead makes the `Response` constructor throw and
the wrapped call reject.) -/
theorem claim6_circular_fallback (h : Heap) (e : JSValue) (s : String)
    (hns : isString e = false)
    (herr : errorMessageOf h e = .ok (.vStr s))
    (hvalid : validStatusText s = true)
    (hfail : allocStringify h (buildErrorObject h e) = .error ()) :
    ∃ r, catchHandler h e = .ok r
      ∧ r.body = some ("\x7b" ++ (jsonQuote "message" ++ ":" ++ jsonQuote s) ++ "\x7d") := by
  have hb : bodyOf h e (.vStr s)
      = .ok ("\x7b" ++ (jsonQuote "message" ++ ":" ++ jsonQuote s) ++ "\x7d") := by
    rw [bodyOf_nonstring h e _ hns, hfail, stringify_single_string]
  exact ⟨_, catchHandler_ok_explicit h e s _ herr hb hvalid, rfl⟩

/-- C6 witness: the amended theorem at `error.self = error` (the
cyclic heap), whose full record cannot be serialized and whose summary
`"boom"` is a valid reason phrase. -/
theorem claim6_witness :
    ∃ r, catchHandler cyclicHeap (.vObj 0) = .ok r
      ∧ r.body = some ("\x7b" ++ (jsonQuote "message" ++ ":" ++ jsonQuote "boom") ++ "\x7d") :=
  claim6_circular_fallback cyclicHeap (.vObj 0) "boom" rfl rfl rfl rfl

/-- C7 counterexample: a promise rejection with `undefined` reaches the
normalizer, whose very first step `error.message` throws a `TypeError`,
so the wrapped call rejects — the normalization path can throw. -/
theorem claim7_counterexample :
    createSafeFetch (fun _ _ => .rejected [] .vUndefined)
      "https://example.com" none = .rejected [] typeErrorVal := rfl

/-- C7 amended: for every caught failure value whose summary evaluates
without throwing to a string (the value is itself a string, or its
`message` read succeeds with a falsy or string value) that is a valid
reason phrase, the normalization and response-construction path never
throws; and the minimal fallback serialization `{message: summary}`
itself always succeeds for every string summary. (A rejection with
`null`/`undefined` makes the `message` read throw; a summary with
e.g. a newline makes the `Response` constructor throw.) -/
theorem claim7_normalizer_no_throw (h : Heap) (e : JSValue) (s : String)
    (herr : errorMessageOf h e = .ok (.vStr s))
    (hvalid : validStatusText s = true) :
    (∃ r, catchHandler h e = .ok r)
    ∧ (∀ s2, allocStringify h [("message", JSValue.vStr s2)]
        = .ok ("\x7b" ++ (jsonQuote "message" ++ ":" ++ jsonQuote s2) ++ "\x7d")) := by
  obtain ⟨b, hb⟩ := bodyOf_ok h e s
  exact ⟨⟨_, catchHandler_ok_explicit h e s b herr hb hvalid⟩,
    fun s2 => stringify_single_string h s2⟩

/-- C7 witness: the amended theorem at a plain-object failure with no
`message` field, and its fallback-serialization part at a concrete
summary. -/
theorem claim7_witness :
    (∃ r, catchHandler plainHeap (.vObj 0) = .ok r)
    ∧ allocStringify plainHeap [("message", JSValue.vStr "x")]
      = .ok ("\x7b" ++ (jsonQuote "message" ++ ":" ++ jsonQuote "x") ++ "\x7d") :=
  ⟨(claim7_normalizer_no_throw plainHeap (.vObj 0) "Unknown error" rfl rfl).1,
   (claim7_normalizer_no_throw plainHeap (.vObj 0) "Unknown error" rfl rfl).2 "x"⟩

/-- C8 counterexample: a thrown string containing a newline fails the
`Response` constructor's reason-phrase check, so the wrapped call
rejects with a `TypeError` instead of resolving. -/
theorem claim8_counterexample :
    createSafeFetch (fun _ _ => .rejected [] (.vStr "a\nb"))
      "https://example.com" none = .rejected [] reasonPhraseErrorVal := rfl

/-- C8 amended: when the transport's promise rejects with a string `s`
consisting only of reason-phrase characters (TAB, 0x20-0x7E,
0x80-0xFF), the wrapped call resolves to a response whose `statusText`
is `s` and whose body is exactly the JSON text of the one-key record
`{message: s}`. (A string with other characters, e.g. a newline, makes
the `Response` constructor throw and the call reject.) -/
theorem claim8_string_failure (t : Transport) (u : String) (i : Option String)
    (h : Heap) (s : String) (hrej : t u i = .rejected h (.vStr s))
    (hvalid : validStatusText s = true) :
    ∃ r, createSafeFetch t u i = .resolved r ∧ r.statusText = s
      ∧ r.body = some ("\x7b" ++ (jsonQuote "message" ++ ":" ++ jsonQuote s) ++ "\x7d") := by
  have hb : bodyOf h (.vStr s) (.vStr s)
      = .ok ("\x7b" ++ (jsonQuote "message" ++ ":" ++ jsonQuote s) ++ "\x7d") := by
    simp only [bodyOf]
    rw [stringify_single_string]
  have hok := catchHandler_ok_explicit h (.vStr s) s _ rfl hb hvalid
  exact ⟨⟨ERROR_STATUS, s, [("Content-Type", "application/json")],
      some ("\x7b" ++ (jsonQuote "message" ++ ":" ++ jsonQuote s) ++ "\x7d")⟩,
    by simp [createSafeFetch, hrej, hok], rfl, rfl⟩

/-- C8 witness: the amended theorem at the thrown string
`"String error message"` (a valid reason phrase), with the body shown
as a literal. -/
theorem claim8_witness :
    ∃ r, createSafeFetch (fun _ _ => .rejected [] (.vStr "String error message"))
        "https://example.com" none = .resolved r
      ∧ r.statusText = "String error message"
      ∧ r.body = some "\x7b\"message\":\"String error message\"\x7d" := by
  obtain ⟨r, h1, h2, h3⟩ :=
    claim8_string_failure (fun _ _ => .rejected [] (.vStr "String error message"))
      "https://example.com" none [] "String error message" rfl rfl
  exact ⟨r, h1, h2, by rw [h3]; rfl⟩

/-- C9: every synthesized error response carries exactly the header
`Content-Type: application/json`. -/
theorem claim9_content_type (h : Heap) (e : JSValue) (r : ResponseLike)
    (hok : catchHandler h e = .ok r) :
    r.headers = [("Content-Type", "application/json")]
    ∧ ("Content-Type", "application/json") ∈ r.headers := by
  obtain ⟨st, b, rfl⟩ := catchHandler_shape h e r hok
  exact ⟨rfl, by simp⟩

/-- C9 witness: the theorem at a concrete synthesized response. -/
theorem claim9_witness :
    (⟨10001, "Test error", [("Content-Type", "application/json")],
        some "\x7b\"message\":\"Test error\"\x7d"⟩ : ResponseLike).headers
      = [("Content-Type", "application/json")]
    ∧ ("Content-Type", "application/json") ∈
      (⟨10001, "Test error", [("Content-Type", "application/json")],
        some "\x7b\"message\":\"Test error\"\x7d"⟩ : ResponseLike).headers :=
  claim9_content_type [] (.vStr "Test error") _ rfl

/-- C10: a rejection with a non-string primitive carrying no own
properties and no `message` field — any number or boolean — yields a
synthesized response with `statusText` `"Unknown error"` and body
exactly `"\x7b\x7d"`. -/
theorem claim10_bare_primitive (t : Transport) (u : String) (i : Option String)
    (h : Heap) :
    (∀ n : Int, t u i = .rejected h (.vNum n) →
      ∃ r, createSafeFetch t u i = .resolved r
        ∧ r.statusText = "Unknown error" ∧ r.body = some "\x7b\x7d")
    ∧ (∀ b : Bool, t u i = .rejected h (.vBool b) →
      ∃ r, createSafeFetch t u i = .resolved r
        ∧ r.statusText = "Unknown error" ∧ r.body = some "\x7b\x7d") := by
  constructor
  · intro n hrej
    have hb : bodyOf h (.vNum n) (.vStr "Unknown error") = .ok "\x7b\x7d" := by
      simp [bodyOf, buildErrorObject, ownPropNames, stringify_empty]
    have hok := catchHandler_ok_explicit h (.vNum n) "Unknown error" _ rfl hb rfl
    exact ⟨⟨ERROR_STATUS, "Unknown error", [("Content-Type", "application/json")], some "\x7b\x7d"⟩,
      by simp [createSafeFetch, hrej, hok], rfl, rfl⟩
  · intro b hrej
    have hb : bodyOf h (.vBool b) (.vStr "Unknown error") = .ok "\x7b\x7d" := by
      simp [bodyOf, buildErrorObject, ownPropNames, stringify_empty]
    have hok := catchHandler_ok_explicit h (.vBool b) "Unknown error" _ rfl hb rfl
    exact ⟨⟨ERROR_STATUS, "Unknown error", [("Content-Type", "application/json")], some "\x7b\x7d"⟩,
      by simp [createSafeFetch, hrej, hok], rfl, rfl⟩

/-- C10 witness: the theorem at the number `42` and the boolean
`true`. -/
theorem claim10_witness :
    (∃ r, createSafeFetch (fun _ _ => .rejected [] (.vNum 42))
        "https://example.com" none = .resolved r
      ∧ r.statusText = "Unknown error" ∧ r.body = some "\x7b\x7d")
    ∧ (∃ r, createSafeFetch (fun _ _ => .rejected [] (.vBool true))
        "https://example.com" none = .resolved r
      ∧ r.statusText = "Unknown error" ∧ r.body = some "\x7b\x7d") :=
  ⟨(claim10_bare_primitive (fun _ _ => .rejected [] (.vNum 42))
      "https://example.com" none []).1 42 rfl,
   (claim10_bare_primitive (fun _ _ => .rejected [] (.vBool true))
      "https://example.com" none []).2 true rfl⟩

end SafeFetch

